import Mathlib

/-!
Verification of the retro-floppy gradient engine and text-fit scaler.

Shallow embedding of the two algorithmic subsystems of the repository:

* the seeded gradient / contrast engine (src/gradientUtils.ts), and
* the text-fit scale computation inside calculateScales (src/FloppyDisk.tsx).

Modelling conventions:

* JavaScript 32-bit integer operations are modelled on naturals taken
  modulo 2^32 (the unsigned representative of the Int32 value); the
  bitwise operators of JavaScript coincide with the Nat operations on
  these representatives.
* JavaScript floating point arithmetic is modelled by exact rational
  arithmetic; every claim settled here is insensitive to double rounding.
  The single transcendental operation, Math.pow(x, 2.4) in the WCAG
  luminance computation, is modelled by the real power function.
* Division by zero in the scale computation is modelled faithfully by a
  sum type JSNum with infinities and NaN, mirroring IEEE semantics of the
  operations used by the code (mul, div, min, max).
* Numeric option fields (seed, angle) are modelled as integers resp.
  naturals; the code is only ever exercised with integral values there.
* String.charCodeAt is modelled by Char.toNat, which agrees with the
  code for all characters of the basic multilingual plane.
-/

/-- Unsigned 32-bit representative of an integer, as produced by the
JavaScript ToUint32 / ToInt32 conversions (both have the same
representative modulo 2^32). -/
def toUint32 (z : ℤ) : ℕ := (z % (2 ^ 32 : ℤ)).toNat

/-- Math.round for nonnegative arguments: round half toward positive
infinity, i.e. the floor of x + 1/2. All arguments rounded by the
embedded code are nonnegative. -/
def jsRoundNat (q : ℚ) : ℕ := (⌊q + 1 / 2⌋).toNat

/-- JavaScript remainder x % y for nonnegative x and positive y
(the only case exercised by the code): x - y * floor (x / y). -/
def qfmod (x y : ℚ) : ℚ := x - y * ⌊x / y⌋

/-- One step of the Mulberry32 generator of createSeededRandom
(src/gradientUtils.ts). Input and output states are unsigned 32-bit
representatives; the returned rational is the exact value
((t ^ (t >>> 14)) >>> 0) / 4294967296 of the JavaScript code. -/
def mulberryNext (state : ℕ) : ℕ × ℚ :=
  let s := (state + 0x6d2b79f5) % 2 ^ 32
  let t1 := ((s ^^^ (s >>> 15)) * (1 ||| s)) % 2 ^ 32
  let t2 := ((t1 + ((t1 ^^^ (t1 >>> 7)) * (61 ||| t1)) % 2 ^ 32) % 2 ^ 32) ^^^ t1
  (s, ((t2 ^^^ (t2 >>> 14) : ℕ) : ℚ) / 2 ^ 32)

/-- stringToSeed (src/gradientUtils.ts): rolling 32-bit hash of the
label, absolute value of the signed result; empty strings map to the
fixed default seed 12345. -/
def stringToSeed (str : String) : ℕ :=
  if str = "" then 12345
  else
    let u := str.data.foldl
      (fun (h : ℕ) c => ((((h * 32 : ℤ) - h + c.toNat) % (2 ^ 32 : ℤ))).toNat) 0
    if u < 2 ^ 31 then u else 2 ^ 32 - u

/-- JavaScript number results of the scale computation: finite value,
infinities, or NaN. -/
inductive JSNum where
  | fin (q : ℚ)
  | posInf
  | negInf
  | nan
deriving DecidableEq, Repr

/-- IEEE division of finite operands as performed by JavaScript. -/
def jsDiv (a b : ℚ) : JSNum :=
  if b = 0 then
    if a = 0 then JSNum.nan
    else if 0 < a then JSNum.posInf
    else JSNum.negInf
  else JSNum.fin (a / b)

/-- Math.min on JavaScript numbers: NaN propagates, otherwise the usual
order with the infinities. -/
def jsMin : JSNum → JSNum → JSNum
  | JSNum.nan, _ => JSNum.nan
  | _, JSNum.nan => JSNum.nan
  | JSNum.posInf, x => x
  | x, JSNum.posInf => x
  | JSNum.negInf, _ => JSNum.negInf
  | _, JSNum.negInf => JSNum.negInf
  | JSNum.fin a, JSNum.fin b => JSNum.fin (min a b)

/-- Math.max on JavaScript numbers: NaN propagates, otherwise the usual
order with the infinities. -/
def jsMax : JSNum → JSNum → JSNum
  | JSNum.nan, _ => JSNum.nan
  | _, JSNum.nan => JSNum.nan
  | JSNum.negInf, x => x
  | x, JSNum.negInf => x
  | JSNum.posInf, _ => JSNum.posInf
  | _, JSNum.posInf => JSNum.posInf
  | JSNum.fin a, JSNum.fin b => JSNum.fin (max a b)

/-- The scale computation of calculateScales (src/FloppyDisk.tsx):
availableWidth = containerWidth * 0.88 (LABEL_WIDTH_RATIO), divided by
the natural text width, clamped by Math.max(0.4, Math.min(1.5, scale)).
The code contains no guard for zero widths. -/
def computeScale (textWidth containerWidth : ℚ) : JSNum :=
  jsMax (JSNum.fin (0.4 : ℚ))
    (jsMin (JSNum.fin (1.5 : ℚ)) (jsDiv (containerWidth * (0.88 : ℚ)) textWidth))

/-- Clamp of a rational to a closed interval, as used by the
specification text: clamp(x, lo, hi). The code realises it as
max lo (min hi x). -/
def clampQ (x lo hi : ℚ) : ℚ := max lo (min hi x)

/-- The decimal digit character for n % 10. -/
def decDigit (n : ℕ) : Char := Char.ofNat (48 + n % 10)

/-- Canonical decimal digits of a natural number, fuel-indexed so that
the recursion is structural (the fuel n itself always suffices).
This is the digit sequence produced by JavaScript template
interpolation of a nonnegative integer. -/
def natDecimalAux : ℕ → ℕ → List Char
  | 0, n => [decDigit n]
  | fuel + 1, n =>
    if n < 10 then [decDigit n]
    else natDecimalAux fuel (n / 10) ++ [decDigit n]

/-- Canonical decimal digits of a natural number. -/
def natDecimal (n : ℕ) : List Char := natDecimalAux n n

/-- Canonical decimal string of a natural number. -/
def natDecimalStr (n : ℕ) : String := ⟨natDecimal n⟩

/-- Value of a digit string, most significant digit first; this is what
parseInt returns on a match group consisting of decimal digits. -/
def digitsToNat (ds : List Char) : ℕ :=
  ds.foldl (fun a c => a * 10 + (c.toNat - 48)) 0

/-- The HSL string format produced by generateColorPalette:
hsl(H, S%, L%). -/
def mkHslString (h s l : ℕ) : String :=
  "hsl(" ++ natDecimalStr h ++ ", " ++ natDecimalStr s ++ "%, " ++ natDecimalStr l ++ "%)"

/-- The loop body of generateColorPalette (src/gradientUtils.ts):
for each color index i, draw the hue offset factor, the saturation and
the lightness from the stream (three draws, in this order), and push
the rounded hsl string. -/
def paletteColors (baseHue : ℚ) : ℕ → ℕ → ℕ → List String
  | _, _, 0 => []
  | st, i, k + 1 =>
    let p1 := mulberryNext st
    let p2 := mulberryNext p1.1
    let p3 := mulberryNext p2.1
    let hue := qfmod (baseHue + (p1.2 * 30 + 15) * i) 360
    let saturation := 25 + p2.2 * 25
    let lightness := 65 + p3.2 * 20
    mkHslString (jsRoundNat hue) (jsRoundNat saturation) (jsRoundNat lightness)
      :: paletteColors baseHue p3.1 (i + 1) k

/-- generateColorPalette (src/gradientUtils.ts): draw a base hue and a
color count of 2 or 3, then generate that many analogous pastel hsl
colors. -/
def generateColorPalette (seed : ℤ) : List String :=
  let p1 := mulberryNext (toUint32 seed)
  let baseHue := p1.2 * 360
  let p2 := mulberryNext p1.1
  let colorCount := 2 + (⌊p2.2 * 2⌋).toNat
  paletteColors baseHue p2.1 0 colorCount

/-- Whitespace characters recognised for the regex class between the
comma and the next digit group (the strings handled by the code only
ever contain plain spaces there). -/
def jsSpace (c : Char) : Bool :=
  c = ' ' || c = '\t' || c = '\n' || c = '\r'

/-- Strip an expected character sequence from the front of a list;
some rest on success, none on the first mismatch. -/
def stripChars : List Char → List Char → Option (List Char)
  | [], l => some l
  | _ :: _, [] => none
  | p :: ps, c :: cs => if c = p then stripChars ps cs else none

/-- Anchored match of the regular expression
hsl\((\d+),\s*(\d+)%,\s*(\d+)%\) at the head of the character list,
returning the three parseInt group values. Greedy matching of the
digit and space classes agrees with the backtracking regex because the
classes are disjoint from the following literal characters. -/
def parseHslAt (l : List Char) : Option (ℕ × ℕ × ℕ) :=
  match stripChars "hsl(".data l with
  | none => none
  | some r1 =>
    let d1 := r1.takeWhile Char.isDigit
    if d1.isEmpty then none
    else
      match r1.dropWhile Char.isDigit with
      | ',' :: r2 =>
        let r3 := r2.dropWhile jsSpace
        let d2 := r3.takeWhile Char.isDigit
        if d2.isEmpty then none
        else
          match r3.dropWhile Char.isDigit with
          | '%' :: ',' :: r4 =>
            let r5 := r4.dropWhile jsSpace
            let d3 := r5.takeWhile Char.isDigit
            if d3.isEmpty then none
            else
              match r5.dropWhile Char.isDigit with
              | '%' :: ')' :: _ =>
                some (digitsToNat d1, digitsToNat d2, digitsToNat d3)
              | _ => none
          | _ => none
      | _ => none

/-- Unanchored search used by String.prototype.match: try every start
position from the left. -/
def hslSearch : List Char → Option (ℕ × ℕ × ℕ)
  | [] => none
  | c :: cs =>
    match parseHslAt (c :: cs) with
    | some v => some v
    | none => hslSearch cs

/-- The regex match hsl.match(/hsl\((\d+),\s*(\d+)%,\s*(\d+)%\)/) of
hslToRgb, returning the three numeric groups when the string contains
the pattern. -/
def hslMatch (s : String) : Option (ℕ × ℕ × ℕ) := hslSearch s.data

/-- An RGB triple as returned by hslToRgb (integral after rounding). -/
structure RGB where
  r : ℕ
  g : ℕ
  b : ℕ
deriving DecidableEq, Repr

/-- The hue2rgb helper of hslToRgb (src/gradientUtils.ts). -/
def hue2rgb (p q t0 : ℚ) : ℚ :=
  let ta := if t0 < 0 then t0 + 1 else t0
  let t := if 1 < ta then ta - 1 else ta
  if t < 1 / 6 then p + (q - p) * 6 * t
  else if t < 1 / 2 then q
  else if t < 2 / 3 then p + (q - p) * (2 / 3 - t) * 6
  else p

/-- hslToRgb (src/gradientUtils.ts): parse the hsl string; unparseable
strings become white (255, 255, 255); otherwise standard HSL to RGB
conversion with rounding to integral channels. -/
def hslToRgb (hsl : String) : RGB :=
  match hslMatch hsl with
  | none => ⟨255, 255, 255⟩
  | some (hn, sn, ln) =>
    let h : ℚ := (hn : ℚ) / 360
    let s : ℚ := (sn : ℚ) / 100
    let l : ℚ := (ln : ℚ) / 100
    if s = 0 then
      let c := jsRoundNat (l * 255)
      ⟨c, c, c⟩
    else
      let q := if l < 1 / 2 then l * (1 + s) else l + s - l * s
      let p := 2 * l - q
      ⟨jsRoundNat (hue2rgb p q (h + 1 / 3) * 255),
       jsRoundNat (hue2rgb p q h * 255),
       jsRoundNat (hue2rgb p q (h - 1 / 3) * 255)⟩

/-- The luminance of one sRGB channel value (0-255) according to the
WCAG formula used by calculateLuminance: linear below the 0.03928
threshold, gamma curve Math.pow((v + 0.055) / 1.055, 2.4) above it.
The branch condition is exact rational arithmetic; only the gamma
power lives in the reals. -/
noncomputable def srgbChannel (c : ℕ) : ℝ :=
  let val : ℚ := (c : ℚ) / 255
  if val ≤ 0.03928 then ((val / 12.92 : ℚ) : ℝ)
  else (((val + 0.055) / 1.055 : ℚ) : ℝ) ^ (2.4 : ℝ)

/-- calculateLuminance (src/gradientUtils.ts): WCAG relative luminance
of an RGB triple. -/
noncomputable def calculateLuminance (r g b : ℕ) : ℝ :=
  0.2126 * srgbChannel r + 0.7152 * srgbChannel g + 0.0722 * srgbChannel b

/-- calculateContrastRatio (src/gradientUtils.ts): WCAG contrast ratio
(lighter + 0.05) / (darker + 0.05). -/
noncomputable def calculateContrastRatio (lum1 lum2 : ℝ) : ℝ :=
  (max lum1 lum2 + 0.05) / (min lum1 lum2 + 0.05)

/-- calculateGradientLuminance (src/gradientUtils.ts): arithmetic mean
of the per-color luminances of the palette. -/
noncomputable def calculateGradientLuminance (colors : List String) : ℝ :=
  (colors.map (fun c => calculateLuminance (hslToRgb c).r (hslToRgb c).g (hslToRgb c).b)).sum
    / (colors.length : ℝ)

open Classical in
/-- getAdaptiveTextColor (src/gradientUtils.ts): white text when the
contrast of the mean gradient luminance against white strictly exceeds
the contrast against black, dark text otherwise. -/
noncomputable def getAdaptiveTextColor (colors : List String) : String :=
  let gradientLuminance := calculateGradientLuminance colors
  if calculateContrastRatio gradientLuminance 1 > calculateContrastRatio gradientLuminance 0
  then "#ffffff" else "#000000"

/-- The concrete gradient shapes. -/
inductive ConcreteGradType where
  | linear
  | radial
  | conic
deriving DecidableEq, Repr

/-- The requested gradient type, including auto. -/
inductive GradientType where
  | linear
  | radial
  | conic
  | auto
deriving DecidableEq, Repr

/-- Fallback gradient returned by generateGradientCSS for an empty
color array. -/
def defaultGradient : String :=
  "linear-gradient(135deg, #667eea 0%, #764ba2 100%)"

/-- Color stops of a linear or radial gradient: positions
(i / (length - 1)) * 100, rounded, suffixed with a percent sign and
joined by a comma and a space. -/
def stopsPercent (colors : List String) : String :=
  String.intercalate ", "
    (colors.enum.map (fun ic =>
      ic.2 ++ " " ++ natDecimalStr (jsRoundNat ((ic.1 : ℚ) / ((colors.length : ℚ) - 1) * 100)) ++ "%"))

/-- Color stops of a conic gradient: positions (i / length) * 360,
rounded, suffixed with deg. -/
def stopsDeg (colors : List String) : String :=
  String.intercalate ", "
    (colors.enum.map (fun ic =>
      ic.2 ++ " " ++ natDecimalStr (jsRoundNat ((ic.1 : ℚ) / (colors.length : ℚ) * 360)) ++ "deg"))

/-- generateGradientCSS (src/gradientUtils.ts). An empty color list
yields the fixed default gradient, a single color is returned as-is;
otherwise the CSS string for the requested concrete shape is built,
drawing the angle (respectively center point or start angle) from the
stream unless a custom angle applies. The stream state is the
explicit-state image of the random closure argument. -/
def generateGradientCSS (colors : List String) (ty : ConcreteGradType) (st : ℕ)
    (customAngle : Option ℕ) : String :=
  match colors with
  | [] => defaultGradient
  | [c] => c
  | _ =>
    match ty with
    | ConcreteGradType.linear =>
      let angle : ℕ :=
        match customAngle with
        | some a => a
        | none => jsRoundNat ((mulberryNext st).2 * 360)
      "linear-gradient(" ++ natDecimalStr angle ++ "deg, " ++ stopsPercent colors ++ ")"
    | ConcreteGradType.radial =>
      let p1 := mulberryNext st
      let x := 30 + jsRoundNat (p1.2 * 40)
      let y := 30 + jsRoundNat ((mulberryNext p1.1).2 * 40)
      "radial-gradient(circle at " ++ natDecimalStr x ++ "% " ++ natDecimalStr y ++ "%, "
        ++ stopsPercent colors ++ ")"
    | ConcreteGradType.conic =>
      let startAngle := jsRoundNat ((mulberryNext st).2 * 360)
      "conic-gradient(from " ++ natDecimalStr startAngle ++ "deg, " ++ stopsDeg colors ++ ")"

/-- The result record of generateLabelGradient. -/
structure GradientConfig where
  gradient : String
  textColor : String
  textShadow : String
  colors : List String

/-- The options record of generateLabelGradient. -/
structure GradientGenerationOptions where
  seed : Option ℤ
  colors : Option (List String)
  angle : Option ℕ

/-- The seed resolution of generateLabelGradient: an explicit
options.seed wins, otherwise the hash of the label name. -/
def resolveSeed (labelName : String) (seedOpt : Option ℤ) : ℤ :=
  match seedOpt with
  | some k => k
  | none => (stringToSeed labelName : ℤ)

/-- The color resolution of generateLabelGradient: a supplied non-empty
color list wins, otherwise the palette generated from the seed (an
empty supplied list is NOT the fallback branch of generateGradientCSS;
it selects the generated palette). -/
def resolveColors (seed : ℤ) (colorsOpt : Option (List String)) : List String :=
  match colorsOpt with
  | some cs => if 0 < cs.length then cs else generateColorPalette seed
  | none => generateColorPalette seed

/-- The gradient type resolution of generateLabelGradient: auto draws
one value from the stream and picks linear below 0.5, radial below
0.8, conic otherwise; concrete requests pass through without
consuming the stream. Returns the stream state after resolution. -/
def resolveGradientType (g : GradientType) (st : ℕ) : ℕ × ConcreteGradType :=
  match g with
  | GradientType.auto =>
    let p := mulberryNext st
    (p.1, if p.2 < 0.5 then ConcreteGradType.linear
          else if p.2 < 0.8 then ConcreteGradType.radial
          else ConcreteGradType.conic)
  | GradientType.linear => (st, ConcreteGradType.linear)
  | GradientType.radial => (st, ConcreteGradType.radial)
  | GradientType.conic => (st, ConcreteGradType.conic)

/-- generateLabelGradient (src/gradientUtils.ts): resolve the seed
(an explicit option overrides the label hash), the colors and the
gradient type, build the gradient CSS, choose the adaptive text color
and the matching shadow. -/
noncomputable def generateLabelGradient (labelName : String) (gradientType : GradientType)
    (options : GradientGenerationOptions) : GradientConfig :=
  let seed : ℤ := resolveSeed labelName options.seed
  let colors := resolveColors seed options.colors
  let str := resolveGradientType gradientType (toUint32 seed)
  let gradient := generateGradientCSS colors str.2 str.1 options.angle
  let textColor := getAdaptiveTextColor colors
  let textShadow :=
    if textColor = "#ffffff"
    then "0 1px 3px rgba(0, 0, 0, 0.3), 0 1px 2px rgba(0, 0, 0, 0.2)"
    else "0 1px 2px rgba(255, 255, 255, 0.8), 0 0 1px rgba(255, 255, 255, 0.5)"
  ⟨gradient, textColor, textShadow, colors⟩

/-- Decidable form of the regular expression
/^linear-gradient\(\d+deg/ from the specification. -/
def matchLinearPat (s : String) : Bool :=
  match stripChars "linear-gradient(".data s.data with
  | none => false
  | some r =>
    !(r.takeWhile Char.isDigit).isEmpty
      && (stripChars "deg".data (r.dropWhile Char.isDigit)).isSome

/-- Decidable form of the regular expression
/^radial-gradient\(circle at/ from the specification. -/
def matchRadialPat (s : String) : Bool :=
  (stripChars "radial-gradient(circle at".data s.data).isSome

/-- Decidable form of the regular expression
/^conic-gradient\(from \d+deg/ from the specification. -/
def matchConicPat (s : String) : Bool :=
  match stripChars "conic-gradient(from ".data s.data with
  | none => false
  | some r =>
    !(r.takeWhile Char.isDigit).isEmpty
      && (stripChars "deg".data (r.dropWhile Char.isDigit)).isSome

/-- For a positive natural text width the scale computation is the
clamped rational value of the specification formula. -/
theorem computeScale_eq_clamp (tw cw : ℚ) (htw : 0 < tw) :
    computeScale tw cw = JSNum.fin (clampQ (cw * 0.88 / tw) 0.4 1.5) := by
  unfold computeScale jsDiv
  rw [if_neg (ne_of_gt htw)]
  simp [jsMin, jsMax, clampQ]

/-- The clamp always lands in the closed interval of its bounds. -/
theorem clampQ_mem (x : ℚ) : 0.4 ≤ clampQ x 0.4 1.5 ∧ clampQ x 0.4 1.5 ≤ 1.5 := by
  constructor
  · exact le_max_left _ _
  · exact max_le (by norm_num) (min_le_left _ _)

/-- C5: for positive widths the computed scale equals the clamp of
containerWidth * 0.88 / naturalWidth to [0.4, 1.5], and therefore
always lies in that closed interval. -/
theorem computeScale_bounds (tw cw : ℚ) (htw : 0 < tw) (hcw : 0 < cw) :
    computeScale tw cw = JSNum.fin (clampQ (cw * 0.88 / tw) 0.4 1.5) ∧
    0.4 ≤ clampQ (cw * 0.88 / tw) 0.4 1.5 ∧
    clampQ (cw * 0.88 / tw) 0.4 1.5 ≤ 1.5 :=
  ⟨computeScale_eq_clamp tw cw htw, (clampQ_mem _).1, (clampQ_mem _).2⟩

/-- Witness for C5 at the widths of the specification example
scenario: scale 500 wide text into a 200 wide container. -/
theorem computeScale_bounds_witness :
    computeScale 500 200 = JSNum.fin (clampQ (200 * 0.88 / 500) 0.4 1.5) ∧
    0.4 ≤ clampQ ((200 : ℚ) * 0.88 / 500) 0.4 1.5 ∧
    clampQ ((200 : ℚ) * 0.88 / 500) 0.4 1.5 ≤ 1.5 :=
  computeScale_bounds 500 200 (by norm_num) (by norm_num)

/-- C3: generateLabelGradient is a pure function of its arguments; the
embedding threads all generator state explicitly, so two calls with
identical arguments are literally the same value, and the function is
total (no exception path exists in the model). -/
theorem generateLabelGradient_deterministic
    (text : String) (ty : GradientType) (opts : GradientGenerationOptions) :
    generateLabelGradient text ty opts = generateLabelGradient text ty opts := rfl

/-- C4: a supplied seed makes the label text irrelevant: all fields of
the result agree for any two texts under the same explicit seed,
whatever the other options are. -/
theorem generateLabelGradient_seed_override
    (s1 s2 : String) (ty : GradientType) (k : ℤ)
    (cs : Option (List String)) (ang : Option ℕ) :
    generateLabelGradient s1 ty ⟨some k, cs, ang⟩
      = generateLabelGradient s2 ty ⟨some k, cs, ang⟩ := rfl

/-- An empty supplied color list resolves exactly like an absent one:
the palette generated from the seed. -/
theorem resolveColors_empty (seed : ℤ) :
    resolveColors seed (some []) = resolveColors seed none := by
  simp [resolveColors]

/-- C2 (amended): generateLabelGradient treats an empty options.colors
list as absent, generating the palette from the seed; the fixed
two-stop default gradient is produced only by generateGradientCSS
itself when called directly with an empty color list. -/
theorem generateLabelGradient_empty_colors
    (text : String) (ty : GradientType) (sd : Option ℤ) (ang : Option ℕ) :
    generateLabelGradient text ty ⟨sd, some [], ang⟩
        = generateLabelGradient text ty ⟨sd, none, ang⟩ ∧
    ∀ (ty2 : ConcreteGradType) (st : ℕ) (ang2 : Option ℕ),
      generateGradientCSS [] ty2 st ang2 = defaultGradient := by
  constructor
  · simp [generateLabelGradient, resolveColors]
  · intro ty2 st ang2
    cases ty2 <;> simp [generateGradientCSS]

/-- The decimal digit characters are digits. -/
theorem decDigit_isDigit (n : ℕ) : (decDigit n).isDigit = true := by
  have h : n % 10 = 0 ∨ n % 10 = 1 ∨ n % 10 = 2 ∨ n % 10 = 3 ∨ n % 10 = 4 ∨
      n % 10 = 5 ∨ n % 10 = 6 ∨ n % 10 = 7 ∨ n % 10 = 8 ∨ n % 10 = 9 := by omega
  rcases h with h | h | h | h | h | h | h | h | h | h <;> simp [decDigit, h]

/-- The code point of a decimal digit character recovers the digit. -/
theorem decDigit_toNat (n : ℕ) : (decDigit n).toNat = 48 + n % 10 := by
  have h : n % 10 = 0 ∨ n % 10 = 1 ∨ n % 10 = 2 ∨ n % 10 = 3 ∨ n % 10 = 4 ∨
      n % 10 = 5 ∨ n % 10 = 6 ∨ n % 10 = 7 ∨ n % 10 = 8 ∨ n % 10 = 9 := by omega
  rcases h with h | h | h | h | h | h | h | h | h | h <;> simp [decDigit, h]

/-- Every character of a decimal representation is a digit. -/
theorem natDecimalAux_digits :
    ∀ fuel n : ℕ, ∀ c ∈ natDecimalAux fuel n, c.isDigit = true := by
  intro fuel
  induction fuel with
  | zero =>
    intro n c hc
    simp [natDecimalAux] at hc
    simpa [hc] using decDigit_isDigit n
  | succ f ih =>
    intro n c hc
    by_cases h : n < 10
    · simp [natDecimalAux, h] at hc
      simpa [hc] using decDigit_isDigit n
    · simp [natDecimalAux, h] at hc
      rcases hc with hc | hc
      · exact ih _ c hc
      · simpa [hc] using decDigit_isDigit n

/-- Decimal representations are nonempty. -/
theorem natDecimalAux_ne_nil (fuel n : ℕ) : natDecimalAux fuel n ≠ [] := by
  cases fuel with
  | zero => simp [natDecimalAux]
  | succ f =>
    by_cases h : n < 10 <;> simp [natDecimalAux, h]

/-- Folding the parseInt step over a decimal representation computed
with sufficient fuel recovers the number (shifted by the
accumulator). -/
theorem natDecimalAux_foldl :
    ∀ fuel n : ℕ, n ≤ fuel → ∀ acc : ℕ,
      (natDecimalAux fuel n).foldl (fun a c => a * 10 + (c.toNat - 48)) acc
        = acc * 10 ^ (natDecimalAux fuel n).length + n := by
  intro fuel
  induction fuel with
  | zero =>
    intro n hn acc
    have h0 : n = 0 := Nat.le_zero.mp hn
    subst h0
    simp [natDecimalAux, decDigit_toNat]
  | succ f ih =>
    intro n hn acc
    by_cases h : n < 10
    · simp [natDecimalAux, h, decDigit_toNat]
    · have hdiv : n / 10 ≤ f := by omega
      have hrec := ih (n / 10) hdiv acc
      simp [natDecimalAux, h, List.foldl_append, hrec, decDigit_toNat]
      have : acc * 10 ^ (natDecimalAux f (n / 10)).length * 10
          = acc * 10 ^ ((natDecimalAux f (n / 10)).length + 1) := by ring
      omega

/-- parseInt round trip on the canonical decimal string. -/
theorem digitsToNat_natDecimal (n : ℕ) : digitsToNat (natDecimal n) = n := by
  have h := natDecimalAux_foldl n n le_rfl 0
  simpa [digitsToNat, natDecimal] using h

/-- Characters of the canonical decimal string are digits. -/
theorem natDecimal_digits (n : ℕ) : ∀ c ∈ natDecimal n, c.isDigit = true :=
  natDecimalAux_digits n n

/-- The canonical decimal string is nonempty. -/
theorem natDecimal_ne_nil (n : ℕ) : natDecimal n ≠ [] :=
  natDecimalAux_ne_nil n n

/-- takeWhile over a block that satisfies the predicate keeps the
block. -/
theorem takeWhile_append_all (p : Char → Bool) :
    ∀ ds rest : List Char, (∀ c ∈ ds, p c = true) →
      List.takeWhile p (ds ++ rest) = ds ++ List.takeWhile p rest := by
  intro ds
  induction ds with
  | nil => intro rest h; simp
  | cons d ds ih =>
    intro rest h
    have hd : p d = true := h d (by simp)
    simp [List.takeWhile, hd]
    exact ih rest (fun c hc => h c (by simp [hc]))

/-- dropWhile over a block that satisfies the predicate skips the
block. -/
theorem dropWhile_append_all (p : Char → Bool) :
    ∀ ds rest : List Char, (∀ c ∈ ds, p c = true) →
      List.dropWhile p (ds ++ rest) = List.dropWhile p rest := by
  intro ds
  induction ds with
  | nil => intro rest h; simp
  | cons d ds ih =>
    intro rest h
    have hd : p d = true := h d (by simp)
    simp [List.dropWhile, hd]
    exact ih rest (fun c hc => h c (by simp [hc]))

/-- Stripping an expected block from a list starting with that block
succeeds and returns the remainder. -/
theorem stripChars_append :
    ∀ p rest : List Char, stripChars p (p ++ rest) = some rest := by
  intro p
  induction p with
  | nil => intro rest; simp [stripChars]
  | cons a as ih => intro rest; simp [stripChars, ih]

/-- Stripping fails immediately on a head mismatch. -/
theorem stripChars_cons_ne (a : Char) (as : List Char) (b : Char) (bs : List Char)
    (h : b ≠ a) : stripChars (a :: as) (b :: bs) = none := by
  simp [stripChars, h]

/-- Whitespace characters are not digits. -/
theorem jsSpace_not_digit (c : Char) (h : jsSpace c = true) : c.isDigit = false := by
  simp [jsSpace] at h
  rcases h with ((h | h) | h) | h <;> subst h <;> decide

/-- Digits are not whitespace. -/
theorem digit_not_jsSpace (c : Char) (h : c.isDigit = true) : jsSpace c = false := by
  cases hj : jsSpace c with
  | false => rfl
  | true => rw [jsSpace_not_digit c hj] at h; cases h

/-- A maximal digit group followed by a non-digit splits cleanly under
takeWhile. -/
theorem takeWhile_digit_block (ds : List Char) (c : Char) (rest : List Char)
    (hds : ∀ x ∈ ds, x.isDigit = true) (hc : c.isDigit = false) :
    List.takeWhile Char.isDigit (ds ++ c :: rest) = ds := by
  rw [takeWhile_append_all Char.isDigit ds (c :: rest) hds]
  simp [List.takeWhile, hc]

/-- A maximal digit group followed by a non-digit splits cleanly under
dropWhile. -/
theorem dropWhile_digit_block (ds : List Char) (c : Char) (rest : List Char)
    (hds : ∀ x ∈ ds, x.isDigit = true) (hc : c.isDigit = false) :
    List.dropWhile Char.isDigit (ds ++ c :: rest) = c :: rest := by
  rw [dropWhile_append_all Char.isDigit ds (c :: rest) hds]
  simp [List.dropWhile, hc]

/-- Character data of the canonical decimal string. -/
theorem natDecimalStr_data (n : ℕ) : (natDecimalStr n).data = natDecimal n := rfl

/-- Sufficient data shape for the linear pattern. -/
theorem matchLinearPat_of_data (s : String) (n : ℕ) (rest : List Char)
    (hdata : s.data = "linear-gradient(".data ++ (natDecimal n ++ ('d' :: 'e' :: 'g' :: rest))) :
    matchLinearPat s = true := by
  unfold matchLinearPat
  rw [hdata, stripChars_append]
  simp only [takeWhile_digit_block (natDecimal n) 'd' ('e' :: 'g' :: rest) (natDecimal_digits n) (by decide),
    dropWhile_digit_block (natDecimal n) 'd' ('e' :: 'g' :: rest) (natDecimal_digits n) (by decide)]
  rw [show ('d' :: 'e' :: 'g' :: rest) = "deg".data ++ rest from rfl, stripChars_append]
  simp [natDecimal_ne_nil n]

/-- Sufficient data shape for the conic pattern. -/
theorem matchConicPat_of_data (s : String) (n : ℕ) (rest : List Char)
    (hdata : s.data = "conic-gradient(from ".data ++ (natDecimal n ++ ('d' :: 'e' :: 'g' :: rest))) :
    matchConicPat s = true := by
  unfold matchConicPat
  rw [hdata, stripChars_append]
  simp only [takeWhile_digit_block (natDecimal n) 'd' ('e' :: 'g' :: rest) (natDecimal_digits n) (by decide),
    dropWhile_digit_block (natDecimal n) 'd' ('e' :: 'g' :: rest) (natDecimal_digits n) (by decide)]
  rw [show ('d' :: 'e' :: 'g' :: rest) = "deg".data ++ rest from rfl, stripChars_append]
  simp [natDecimal_ne_nil n]

/-- Sufficient data shape for the radial pattern. -/
theorem matchRadialPat_of_data (s : String) (rest : List Char)
    (hdata : s.data = "radial-gradient(circle at".data ++ rest) :
    matchRadialPat s = true := by
  unfold matchRadialPat
  rw [hdata, stripChars_append]
  rfl

/-- A string whose first character is not l cannot match the linear
pattern. -/
theorem matchLinearPat_head (s : String) (c : Char) (rest : List Char)
    (hdata : s.data = c :: rest) (hc : c ≠ 'l') : matchLinearPat s = false := by
  unfold matchLinearPat
  rw [hdata, show "linear-gradient(".data = 'l' :: "inear-gradient(".data from rfl,
    stripChars_cons_ne _ _ _ _ hc]

/-- A string whose first character is not r cannot match the radial
pattern. -/
theorem matchRadialPat_head (s : String) (c : Char) (rest : List Char)
    (hdata : s.data = c :: rest) (hc : c ≠ 'r') : matchRadialPat s = false := by
  unfold matchRadialPat
  rw [hdata, show "radial-gradient(circle at".data = 'r' :: "adial-gradient(circle at".data from rfl,
    stripChars_cons_ne _ _ _ _ hc]
  rfl

/-- A string whose first character is not c cannot match the conic
pattern. -/
theorem matchConicPat_head (s : String) (c : Char) (rest : List Char)
    (hdata : s.data = c :: rest) (hc : c ≠ 'c') : matchConicPat s = false := by
  unfold matchConicPat
  rw [hdata, show "conic-gradient(from ".data = 'c' :: "onic-gradient(from ".data from rfl,
    stripChars_cons_ne _ _ _ _ hc]

/-- Every stream value lies in [0, 1). -/
theorem mulberryNext_val_bounds (st : ℕ) :
    0 ≤ (mulberryNext st).2 ∧ (mulberryNext st).2 < 1 := by
  have key : ∀ x : ℕ, x < 2 ^ 32 → 0 ≤ (x : ℚ) / 2 ^ 32 ∧ (x : ℚ) / 2 ^ 32 < 1 := by
    intro x hx
    constructor
    · positivity
    · rw [div_lt_one (by positivity)]
      exact_mod_cast hx
  have step : ∀ t : ℕ, t < 2 ^ 32 → t ^^^ (t >>> 14) < 2 ^ 32 := by
    intro t ht
    apply Nat.xor_lt_two_pow ht
    apply Nat.lt_of_le_of_lt _ ht
    rw [Nat.shiftRight_eq_div_pow]
    exact Nat.div_le_self _ _
  unfold mulberryNext
  dsimp only
  apply key
  apply step
  exact Nat.xor_lt_two_pow (Nat.mod_lt _ (by positivity)) (Nat.mod_lt _ (by positivity))

/-- The palette loop produces exactly the requested number of
colors. -/
theorem paletteColors_length (b : ℚ) :
    ∀ k st i, (paletteColors b st i k).length = k := by
  intro k
  induction k with
  | zero => intro st i; simp [paletteColors]
  | succ n ih => intro st i; simp [paletteColors, ih]

/-- The generated palette always has 2 or 3 entries. -/
theorem generateColorPalette_length (seed : ℤ) :
    (generateColorPalette seed).length = 2 ∨ (generateColorPalette seed).length = 3 := by
  unfold generateColorPalette
  dsimp only
  rw [paletteColors_length]
  have hr := mulberryNext_val_bounds (mulberryNext (toUint32 seed)).1
  have h0 : 0 ≤ ⌊(mulberryNext (mulberryNext (toUint32 seed)).1).2 * 2⌋ := by
    apply Int.floor_nonneg.2
    nlinarith [hr.1]
  have h2 : ⌊(mulberryNext (mulberryNext (toUint32 seed)).1).2 * 2⌋ < 2 := by
    apply Int.floor_lt.2
    push_cast
    nlinarith [hr.2]
  omega

/-- Evaluation of the linear branch with a custom angle. -/
theorem gcss_linear_some_eq (a b : String) (t : List String) (st : ℕ) (k : ℕ) :
    generateGradientCSS (a :: b :: t) ConcreteGradType.linear st (some k)
      = "linear-gradient(" ++ natDecimalStr k ++ "deg, " ++ stopsPercent (a :: b :: t) ++ ")" := rfl

/-- Evaluation of the linear branch with a drawn angle. -/
theorem gcss_linear_none_eq (a b : String) (t : List String) (st : ℕ) :
    generateGradientCSS (a :: b :: t) ConcreteGradType.linear st none
      = "linear-gradient(" ++ natDecimalStr (jsRoundNat ((mulberryNext st).2 * 360)) ++ "deg, "
        ++ stopsPercent (a :: b :: t) ++ ")" := rfl

/-- Evaluation of the radial branch. -/
theorem gcss_radial_eq (a b : String) (t : List String) (st : ℕ) (ang : Option ℕ) :
    generateGradientCSS (a :: b :: t) ConcreteGradType.radial st ang
      = "radial-gradient(circle at " ++ natDecimalStr (30 + jsRoundNat ((mulberryNext st).2 * 40)) ++ "% "
        ++ natDecimalStr (30 + jsRoundNat ((mulberryNext (mulberryNext st).1).2 * 40)) ++ "%, "
        ++ stopsPercent (a :: b :: t) ++ ")" := rfl

/-- Evaluation of the conic branch. -/
theorem gcss_conic_eq (a b : String) (t : List String) (st : ℕ) (ang : Option ℕ) :
    generateGradientCSS (a :: b :: t) ConcreteGradType.conic st ang
      = "conic-gradient(from " ++ natDecimalStr (jsRoundNat ((mulberryNext st).2 * 360)) ++ "deg, "
        ++ stopsDeg (a :: b :: t) ++ ")" := rfl

/-- Data decomposition of the linear gradient string form. -/
theorem linearForm_data (A : ℕ) (S : String) :
    ("linear-gradient(" ++ natDecimalStr A ++ "deg, " ++ S ++ ")").data
      = "linear-gradient(".data ++ (natDecimal A ++ ('d' :: 'e' :: 'g' :: ',' :: ' ' :: (S.data ++ [')']))) := by
  simp [natDecimalStr_data,
    show ("deg, " : String).data = ['d', 'e', 'g', ',', ' '] from rfl,
    show (")" : String).data = [')'] from rfl]

/-- Data decomposition of the conic gradient string form. -/
theorem conicForm_data (A : ℕ) (S : String) :
    ("conic-gradient(from " ++ natDecimalStr A ++ "deg, " ++ S ++ ")").data
      = "conic-gradient(from ".data ++ (natDecimal A ++ ('d' :: 'e' :: 'g' :: ',' :: ' ' :: (S.data ++ [')']))) := by
  simp [natDecimalStr_data,
    show ("deg, " : String).data = ['d', 'e', 'g', ',', ' '] from rfl,
    show (")" : String).data = [')'] from rfl]

/-- Data decomposition of the radial gradient string form. -/
theorem radialForm_data (X Y : ℕ) (S : String) :
    ("radial-gradient(circle at " ++ natDecimalStr X ++ "% " ++ natDecimalStr Y ++ "%, " ++ S ++ ")").data
      = "radial-gradient(circle at".data ++ (' ' :: (natDecimal X ++ ('%' :: ' ' ::
          (natDecimal Y ++ ('%' :: ',' :: ' ' :: (S.data ++ [')'])))))) := by
  simp [natDecimalStr_data,
    show ("radial-gradient(circle at " : String).data
      = "radial-gradient(circle at".data ++ [' '] from rfl,
    show ("% " : String).data = ['%', ' '] from rfl,
    show ("%, " : String).data = ['%', ',', ' '] from rfl,
    show (")" : String).data = [')'] from rfl]

/-- Head decomposition of the linear literal. -/
theorem linear_head (X : List Char) :
    "linear-gradient(".data ++ X = 'l' :: ("inear-gradient(".data ++ X) := rfl

/-- Head decomposition of the radial literal. -/
theorem radial_head (X : List Char) :
    "radial-gradient(circle at".data ++ X = 'r' :: ("adial-gradient(circle at".data ++ X) := rfl

/-- Head decomposition of the conic literal. -/
theorem conic_head (X : List Char) :
    "conic-gradient(from ".data ++ X = 'c' :: ("onic-gradient(from ".data ++ X) := rfl

/-- A string of the linear gradient form matches exactly the linear
pattern. -/
theorem linearForm_matches (A : ℕ) (S : String) :
    matchLinearPat ("linear-gradient(" ++ natDecimalStr A ++ "deg, " ++ S ++ ")") = true ∧
    matchRadialPat ("linear-gradient(" ++ natDecimalStr A ++ "deg, " ++ S ++ ")") = false ∧
    matchConicPat ("linear-gradient(" ++ natDecimalStr A ++ "deg, " ++ S ++ ")") = false :=
  ⟨matchLinearPat_of_data _ A _ (linearForm_data A S),
   matchRadialPat_head _ 'l' _ ((linearForm_data A S).trans (linear_head _)) (by decide),
   matchConicPat_head _ 'l' _ ((linearForm_data A S).trans (linear_head _)) (by decide)⟩

/-- A string of the radial gradient form matches exactly the radial
pattern. -/
theorem radialForm_matches (X Y : ℕ) (S : String) :
    matchLinearPat ("radial-gradient(circle at " ++ natDecimalStr X ++ "% " ++ natDecimalStr Y ++ "%, " ++ S ++ ")") = false ∧
    matchRadialPat ("radial-gradient(circle at " ++ natDecimalStr X ++ "% " ++ natDecimalStr Y ++ "%, " ++ S ++ ")") = true ∧
    matchConicPat ("radial-gradient(circle at " ++ natDecimalStr X ++ "% " ++ natDecimalStr Y ++ "%, " ++ S ++ ")") = false :=
  ⟨matchLinearPat_head _ 'r' _ ((radialForm_data X Y S).trans (radial_head _)) (by decide),
   matchRadialPat_of_data _ _ (radialForm_data X Y S),
   matchConicPat_head _ 'r' _ ((radialForm_data X Y S).trans (radial_head _)) (by decide)⟩

/-- A string of the conic gradient form matches exactly the conic
pattern. -/
theorem conicForm_matches (A : ℕ) (S : String) :
    matchLinearPat ("conic-gradient(from " ++ natDecimalStr A ++ "deg, " ++ S ++ ")") = false ∧
    matchRadialPat ("conic-gradient(from " ++ natDecimalStr A ++ "deg, " ++ S ++ ")") = false ∧
    matchConicPat ("conic-gradient(from " ++ natDecimalStr A ++ "deg, " ++ S ++ ")") = true :=
  ⟨matchLinearPat_head _ 'c' _ ((conicForm_data A S).trans (conic_head _)) (by decide),
   matchRadialPat_head _ 'c' _ ((conicForm_data A S).trans (conic_head _)) (by decide),
   matchConicPat_of_data _ A _ (conicForm_data A S)⟩

/-- The per-shape matcher outcome of generateGradientCSS on a palette
of at least two colors: linear. -/
theorem gcss_linear_matches (a b : String) (t : List String) (st : ℕ) (ang : Option ℕ) :
    matchLinearPat (generateGradientCSS (a :: b :: t) ConcreteGradType.linear st ang) = true ∧
    matchRadialPat (generateGradientCSS (a :: b :: t) ConcreteGradType.linear st ang) = false ∧
    matchConicPat (generateGradientCSS (a :: b :: t) ConcreteGradType.linear st ang) = false := by
  cases ang with
  | some k => rw [gcss_linear_some_eq]; exact linearForm_matches k _
  | none => rw [gcss_linear_none_eq]; exact linearForm_matches _ _

/-- The per-shape matcher outcome of generateGradientCSS on a palette
of at least two colors: radial. -/
theorem gcss_radial_matches (a b : String) (t : List String) (st : ℕ) (ang : Option ℕ) :
    matchLinearPat (generateGradientCSS (a :: b :: t) ConcreteGradType.radial st ang) = false ∧
    matchRadialPat (generateGradientCSS (a :: b :: t) ConcreteGradType.radial st ang) = true ∧
    matchConicPat (generateGradientCSS (a :: b :: t) ConcreteGradType.radial st ang) = false := by
  rw [gcss_radial_eq]; exact radialForm_matches _ _ _

/-- The per-shape matcher outcome of generateGradientCSS on a palette
of at least two colors: conic. -/
theorem gcss_conic_matches (a b : String) (t : List String) (st : ℕ) (ang : Option ℕ) :
    matchLinearPat (generateGradientCSS (a :: b :: t) ConcreteGradType.conic st ang) = false ∧
    matchRadialPat (generateGradientCSS (a :: b :: t) ConcreteGradType.conic st ang) = false ∧
    matchConicPat (generateGradientCSS (a :: b :: t) ConcreteGradType.conic st ang) = true := by
  rw [gcss_conic_eq]; exact conicForm_matches _ _

/-- A list of length at least two starts with two cons cells. -/
theorem list_two_cons {α : Type} (l : List α) (hl : 2 ≤ l.length) :
    ∃ a b t, l = a :: b :: t := by
  rcases l with _ | ⟨a, _ | ⟨b, t⟩⟩
  · simp at hl
  · simp at hl
  · exact ⟨a, b, t, rfl⟩

/-- Under the palette-size hypothesis of the shape claim, the resolved
colors are at least two. -/
theorem resolveColors_cons (seed : ℤ) (co : Option (List String))
    (h : co = none ∨ co = some [] ∨ ∃ cs, co = some cs ∧ 2 ≤ cs.length) :
    ∃ a b t, resolveColors seed co = a :: b :: t := by
  rcases h with h | h | ⟨cs, hco, hlen⟩
  · subst h
    apply list_two_cons
    rcases generateColorPalette_length seed with h2 | h2 <;> simp [resolveColors, h2]
  · subst h
    apply list_two_cons
    rcases generateColorPalette_length seed with h2 | h2 <;> simp [resolveColors, h2]
  · subst hco
    apply list_two_cons
    have hpos : 0 < cs.length := by omega
    simpa [resolveColors, hpos] using hlen

/-- Gradient field of generateLabelGradient for a linear request. -/
theorem generateLabelGradient_gradient_linear (text : String) (opts : GradientGenerationOptions) :
    (generateLabelGradient text GradientType.linear opts).gradient
      = generateGradientCSS (resolveColors (resolveSeed text opts.seed) opts.colors)
          ConcreteGradType.linear (toUint32 (resolveSeed text opts.seed)) opts.angle := rfl

/-- Gradient field of generateLabelGradient for a radial request. -/
theorem generateLabelGradient_gradient_radial (text : String) (opts : GradientGenerationOptions) :
    (generateLabelGradient text GradientType.radial opts).gradient
      = generateGradientCSS (resolveColors (resolveSeed text opts.seed) opts.colors)
          ConcreteGradType.radial (toUint32 (resolveSeed text opts.seed)) opts.angle := rfl

/-- Gradient field of generateLabelGradient for a conic request. -/
theorem generateLabelGradient_gradient_conic (text : String) (opts : GradientGenerationOptions) :
    (generateLabelGradient text GradientType.conic opts).gradient
      = generateGradientCSS (resolveColors (resolveSeed text opts.seed) opts.colors)
          ConcreteGradType.conic (toUint32 (resolveSeed text opts.seed)) opts.angle := rfl

/-- Gradient field of generateLabelGradient for an auto request: one
stream draw resolves the shape with thresholds 0.5 and 0.8. -/
theorem generateLabelGradient_gradient_auto (text : String) (opts : GradientGenerationOptions) :
    (generateLabelGradient text GradientType.auto opts).gradient
      = generateGradientCSS (resolveColors (resolveSeed text opts.seed) opts.colors)
          (if (mulberryNext (toUint32 (resolveSeed text opts.seed))).2 < 0.5 then ConcreteGradType.linear
           else if (mulberryNext (toUint32 (resolveSeed text opts.seed))).2 < 0.8 then ConcreteGradType.radial
           else ConcreteGradType.conic)
          (mulberryNext (toUint32 (resolveSeed text opts.seed))).1 opts.angle := rfl

/-- C6 (amended): when the resolved palette has at least two colors
(options.colors absent, empty, or of length at least two), the
gradient string for a linear request matches the linear pattern, a
radial request the radial pattern, a conic request the conic pattern,
and an auto request matches exactly one of the three (one stream draw
with thresholds 0.5 and 0.8). A single supplied color is returned
as-is and matches none of the patterns. -/
theorem generateLabelGradient_shape_patterns (text : String) (opts : GradientGenerationOptions)
    (h : opts.colors = none ∨ opts.colors = some [] ∨ ∃ cs, opts.colors = some cs ∧ 2 ≤ cs.length) :
    matchLinearPat (generateLabelGradient text GradientType.linear opts).gradient = true ∧
    matchRadialPat (generateLabelGradient text GradientType.radial opts).gradient = true ∧
    matchConicPat (generateLabelGradient text GradientType.conic opts).gradient = true ∧
    ((matchLinearPat (generateLabelGradient text GradientType.auto opts).gradient = true ∧
      matchRadialPat (generateLabelGradient text GradientType.auto opts).gradient = false ∧
      matchConicPat (generateLabelGradient text GradientType.auto opts).gradient = false) ∨
     (matchLinearPat (generateLabelGradient text GradientType.auto opts).gradient = false ∧
      matchRadialPat (generateLabelGradient text GradientType.auto opts).gradient = true ∧
      matchConicPat (generateLabelGradient text GradientType.auto opts).gradient = false) ∨
     (matchLinearPat (generateLabelGradient text GradientType.auto opts).gradient = false ∧
      matchRadialPat (generateLabelGradient text GradientType.auto opts).gradient = false ∧
      matchConicPat (generateLabelGradient text GradientType.auto opts).gradient = true)) := by
  obtain ⟨a, b, t, hc⟩ := resolveColors_cons (resolveSeed text opts.seed) opts.colors h
  refine ⟨?_, ?_, ?_, ?_⟩
  · rw [generateLabelGradient_gradient_linear, hc]
    exact (gcss_linear_matches a b t _ _).1
  · rw [generateLabelGradient_gradient_radial, hc]
    exact (gcss_radial_matches a b t _ _).2.1
  · rw [generateLabelGradient_gradient_conic, hc]
    exact (gcss_conic_matches a b t _ _).2.2
  · rw [generateLabelGradient_gradient_auto, hc]
    by_cases h1 : (mulberryNext (toUint32 (resolveSeed text opts.seed))).2 < 0.5
    · rw [if_pos h1]
      exact Or.inl (gcss_linear_matches a b t _ _)
    · rw [if_neg h1]
      by_cases h2 : (mulberryNext (toUint32 (resolveSeed text opts.seed))).2 < 0.8
      · rw [if_pos h2]
        exact Or.inr (Or.inl (gcss_radial_matches a b t _ _))
      · rw [if_neg h2]
        exact Or.inr (Or.inr (gcss_conic_matches a b t _ _))

/-- Witness for the amended shape claim at a generated palette. -/
theorem generateLabelGradient_shape_patterns_witness :
    matchLinearPat (generateLabelGradient "x" GradientType.linear ⟨none, none, none⟩).gradient = true ∧
    matchRadialPat (generateLabelGradient "x" GradientType.radial ⟨none, none, none⟩).gradient = true ∧
    matchConicPat (generateLabelGradient "x" GradientType.conic ⟨none, none, none⟩).gradient = true ∧
    ((matchLinearPat (generateLabelGradient "x" GradientType.auto ⟨none, none, none⟩).gradient = true ∧
      matchRadialPat (generateLabelGradient "x" GradientType.auto ⟨none, none, none⟩).gradient = false ∧
      matchConicPat (generateLabelGradient "x" GradientType.auto ⟨none, none, none⟩).gradient = false) ∨
     (matchLinearPat (generateLabelGradient "x" GradientType.auto ⟨none, none, none⟩).gradient = false ∧
      matchRadialPat (generateLabelGradient "x" GradientType.auto ⟨none, none, none⟩).gradient = true ∧
      matchConicPat (generateLabelGradient "x" GradientType.auto ⟨none, none, none⟩).gradient = false) ∨
     (matchLinearPat (generateLabelGradient "x" GradientType.auto ⟨none, none, none⟩).gradient = false ∧
      matchRadialPat (generateLabelGradient "x" GradientType.auto ⟨none, none, none⟩).gradient = false ∧
      matchConicPat (generateLabelGradient "x" GradientType.auto ⟨none, none, none⟩).gradient = true)) :=
  generateLabelGradient_shape_patterns "x" ⟨none, none, none⟩ (Or.inl rfl)

/-- Data decomposition of the generated hsl color string. -/
theorem mkHslString_data (h s l : ℕ) :
    (mkHslString h s l).data
      = "hsl(".data ++ (natDecimal h ++ (',' :: ' ' :: (natDecimal s ++
          ('%' :: ',' :: ' ' :: (natDecimal l ++ ['%', ')']))))) := by
  simp [mkHslString, natDecimalStr_data,
    show (", " : String).data = [',', ' '] from rfl,
    show ("%, " : String).data = ['%', ',', ' '] from rfl,
    show ("%)" : String).data = ['%', ')'] from rfl]

/-- Head decomposition of the hsl literal. -/
theorem hsl_head (X : List Char) :
    "hsl(".data ++ X = 'h' :: ("sl(".data ++ X) := rfl

/-- Skipping the single space of the generated format stops at the
first digit. -/
theorem dropWhile_space_digits (ds rest : List Char) (hne : ds ≠ [])
    (hds : ∀ c ∈ ds, c.isDigit = true) :
    List.dropWhile jsSpace (' ' :: (ds ++ rest)) = ds ++ rest := by
  obtain ⟨c, t, hct⟩ := List.exists_cons_of_ne_nil hne
  subst hct
  have hc : jsSpace c = false := digit_not_jsSpace c (hds c (by simp))
  simp [List.dropWhile_cons, hc, show jsSpace ' ' = true from rfl]

/-- The anchored regex match succeeds on the generated hsl format and
recovers the three numbers. -/
theorem parseHslAt_mk (h s l : ℕ) :
    parseHslAt (mkHslString h s l).data = some (h, s, l) := by
  rw [mkHslString_data]
  unfold parseHslAt
  rw [stripChars_append]
  simp only [takeWhile_digit_block _ ',' _ (natDecimal_digits h) (by decide),
    dropWhile_digit_block _ ',' _ (natDecimal_digits h) (by decide)]
  simp only [dropWhile_space_digits _ _ (natDecimal_ne_nil s) (natDecimal_digits s)]
  simp only [takeWhile_digit_block _ '%' _ (natDecimal_digits s) (by decide),
    dropWhile_digit_block _ '%' _ (natDecimal_digits s) (by decide)]
  simp only [dropWhile_space_digits _ _ (natDecimal_ne_nil l) (natDecimal_digits l)]
  simp only [takeWhile_digit_block _ '%' _ (natDecimal_digits l) (by decide),
    dropWhile_digit_block _ '%' _ (natDecimal_digits l) (by decide)]
  simp [natDecimal_ne_nil, digitsToNat_natDecimal]

/-- A successful anchored parse at the head makes the search succeed
immediately. -/
theorem hslSearch_cons_pos (c : Char) (cs : List Char) (v : ℕ × ℕ × ℕ)
    (h : parseHslAt (c :: cs) = some v) : hslSearch (c :: cs) = some v := by
  simp [hslSearch, h]

/-- The regex search of hslToRgb succeeds on the generated hsl format
at position zero and recovers the three numbers. -/
theorem hslMatch_mk (h s l : ℕ) : hslMatch (mkHslString h s l) = some (h, s, l) := by
  unfold hslMatch
  rw [(mkHslString_data h s l).trans (hsl_head _)]
  refine hslSearch_cons_pos _ _ _ ?_
  rw [← hsl_head, ← mkHslString_data]
  exact parseHslAt_mk h s l

/-- Bounds of the JavaScript remainder for a positive modulus. -/
theorem qfmod_bounds (x y : ℚ) (hy : 0 < y) : 0 ≤ qfmod x y ∧ qfmod x y < y := by
  unfold qfmod
  constructor
  · have h1 : ((⌊x / y⌋ : ℚ)) ≤ x / y := Int.floor_le (x / y)
    have h2 : y * (⌊x / y⌋ : ℚ) ≤ y * (x / y) := by
      exact mul_le_mul_of_nonneg_left h1 (le_of_lt hy)
    have h3 : y * (x / y) = x := by field_simp
    linarith
  · have h1 : x / y < (⌊x / y⌋ : ℚ) + 1 := Int.lt_floor_add_one (x / y)
    have h2 : y * (x / y) < y * ((⌊x / y⌋ : ℚ) + 1) := by
      exact (mul_lt_mul_left hy).2 h1
    have h3 : y * (x / y) = x := by field_simp
    nlinarith

/-- Rounding a rational below a natural bound stays at or below the
bound. -/
theorem jsRoundNat_le_of_lt (q : ℚ) (B : ℕ) (h : q < (B : ℚ)) : jsRoundNat q ≤ B := by
  unfold jsRoundNat
  have h1 : ⌊q + 1 / 2⌋ < (B : ℤ) + 1 := by
    apply Int.floor_lt.2
    push_cast
    linarith
  omega

/-- Rounding a rational above a natural bound stays at or above the
bound. -/
theorem jsRoundNat_ge_of_le (B : ℕ) (q : ℚ) (h : (B : ℚ) ≤ q) : B ≤ jsRoundNat q := by
  unfold jsRoundNat
  have h1 : (B : ℤ) ≤ ⌊q + 1 / 2⌋ := Int.le_floor.2 (by push_cast; linarith)
  omega

/-- Every color the palette loop emits is a generated hsl string whose
rounded components satisfy the pastel bounds. -/
theorem paletteColors_mem (b : ℚ) :
    ∀ k st i, ∀ c ∈ paletteColors b st i k, ∃ h s l : ℕ,
      c = mkHslString h s l ∧ h ≤ 360 ∧ 25 ≤ s ∧ s ≤ 50 ∧ 65 ≤ l ∧ l ≤ 85 := by
  intro k
  induction k with
  | zero => intro st i c hc; simp [paletteColors] at hc
  | succ n ih =>
    intro st i c hc
    simp only [paletteColors] at hc
    rcases List.mem_cons.1 hc with hc | hc
    · have hr1 := mulberryNext_val_bounds st
      have hr2 := mulberryNext_val_bounds (mulberryNext st).1
      have hr3 := mulberryNext_val_bounds (mulberryNext (mulberryNext st).1).1
      refine ⟨_, _, _, hc, ?_, ?_, ?_, ?_, ?_⟩
      · apply jsRoundNat_le_of_lt
        exact (qfmod_bounds _ 360 (by norm_num)).2
      · apply jsRoundNat_ge_of_le
        push_cast
        nlinarith [hr2.1]
      · apply jsRoundNat_le_of_lt
        push_cast
        nlinarith [hr2.2]
      · apply jsRoundNat_ge_of_le
        push_cast
        nlinarith [hr3.1]
      · apply jsRoundNat_le_of_lt
        push_cast
        nlinarith [hr3.2]
    · exact ih _ _ c hc

/-- Unfolded form of generateColorPalette. -/
theorem generateColorPalette_eq (seed : ℤ) :
    generateColorPalette seed
      = paletteColors ((mulberryNext (toUint32 seed)).2 * 360)
          (mulberryNext (mulberryNext (toUint32 seed)).1).1 0
          (2 + (⌊(mulberryNext (mulberryNext (toUint32 seed)).1).2 * 2⌋).toNat) := rfl

/-- C7 (amended): for every seed the generated palette has 2 or 3
entries, each of the form hsl(H, S%, L%) with H in [0, 360] (the
closed upper end: a base hue just below 360 rounds up to 360),
S in [25, 50] and L in [65, 85]. -/
theorem generateColorPalette_shape (seed : ℤ) :
    ((generateColorPalette seed).length = 2 ∨ (generateColorPalette seed).length = 3) ∧
    ∀ c ∈ generateColorPalette seed, ∃ h s l : ℕ,
      c = mkHslString h s l ∧ h ≤ 360 ∧ 25 ≤ s ∧ s ≤ 50 ∧ 65 ≤ l ∧ l ≤ 85 := by
  refine ⟨generateColorPalette_length seed, ?_⟩
  intro c hc
  rw [generateColorPalette_eq] at hc
  exact paletteColors_mem _ _ _ _ c hc

/-- When the mean luminance is at least 0.18, the contrast against
white cannot exceed the contrast against black. -/
theorem contrast_white_le_black (L : ℝ) (h : (0.18 : ℝ) ≤ L) :
    calculateContrastRatio L 1 ≤ calculateContrastRatio L 0 := by
  unfold calculateContrastRatio
  have h0 : (0 : ℝ) ≤ L := by linarith
  rw [max_eq_left h0, min_eq_right h0]
  by_cases hL : L ≤ 1
  · rw [max_eq_right hL, min_eq_left hL]
    rw [div_le_div_iff (by linarith) (by norm_num)]
    nlinarith
  · push_neg at hL
    rw [max_eq_left (le_of_lt hL), min_eq_right (le_of_lt hL)]
    rw [div_le_div_iff (by norm_num) (by norm_num)]
    nlinarith

/-- The mean of a list of luminances bounded below is bounded below. -/
theorem gradientLuminance_ge (colors : List String) (hne : colors ≠ [])
    (hl : ∀ c ∈ colors, (0.18 : ℝ) ≤ calculateLuminance (hslToRgb c).r (hslToRgb c).g (hslToRgb c).b) :
    (0.18 : ℝ) ≤ calculateGradientLuminance colors := by
  unfold calculateGradientLuminance
  have hlen : 0 < (colors.length : ℝ) := by
    have : 0 < colors.length := List.length_pos.2 hne
    exact_mod_cast this
  rw [le_div_iff hlen]
  have hsum : (colors.length : ℝ) • (0.18 : ℝ)
      ≤ (colors.map (fun c => calculateLuminance (hslToRgb c).r (hslToRgb c).g (hslToRgb c).b)).sum := by
    have := List.card_nsmul_le_sum
      (colors.map (fun c => calculateLuminance (hslToRgb c).r (hslToRgb c).g (hslToRgb c).b))
      (0.18 : ℝ) (by intro x hx; obtain ⟨c, hc, rfl⟩ := List.mem_map.1 hx; exact hl c hc)
    simpa using this
  calc (0.18 : ℝ) * (colors.length : ℝ) = (colors.length : ℝ) • (0.18 : ℝ) := by
        rw [smul_eq_mul]; ring
    _ ≤ _ := hsum

/-- Dark text is chosen whenever every palette color has luminance at
least 0.18. -/
theorem getAdaptiveTextColor_black_of_lum (colors : List String) (hne : colors ≠ [])
    (hl : ∀ c ∈ colors, (0.18 : ℝ) ≤ calculateLuminance (hslToRgb c).r (hslToRgb c).g (hslToRgb c).b) :
    getAdaptiveTextColor colors = "#000000" := by
  unfold getAdaptiveTextColor
  rw [if_neg]
  rw [not_lt]
  exact contrast_white_le_black _ (gradientLuminance_ge colors hne hl)

/-- The hue2rgb helper never goes below p when p is at most q and the
offset argument is at least minus one third. -/
theorem hue2rgb_ge (p q t0 : ℚ) (hpq : p ≤ q) (ht : -(1/3) ≤ t0) : p ≤ hue2rgb p q t0 := by
  have chain : ∀ t : ℚ, 0 ≤ t →
      p ≤ (if t < 1/6 then p + (q - p) * 6 * t
           else if t < 1/2 then q
           else if t < 2/3 then p + (q - p) * (2/3 - t) * 6
           else p) := by
    intro t htn
    by_cases h3 : t < 1/6
    · rw [if_pos h3]
      nlinarith [sub_nonneg.2 hpq]
    · rw [if_neg h3]
      by_cases h4 : t < 1/2
      · rw [if_pos h4]; exact hpq
      · rw [if_neg h4]
        by_cases h5 : t < 2/3
        · rw [if_pos h5]
          nlinarith [sub_nonneg.2 hpq]
        · rw [if_neg h5]
  unfold hue2rgb
  apply chain
  split_ifs <;> linarith

/-- Gamma-corrected channel value of a channel at least 121 is at
least 0.18. -/
theorem srgbChannel_ge (c : ℕ) (hc : 121 ≤ c) : (0.18 : ℝ) ≤ srgbChannel c := by
  unfold srgbChannel
  have hcq : (121 : ℚ) ≤ (c : ℚ) := by exact_mod_cast hc
  rw [if_neg (by rw [not_le]; nlinarith)]
  have hb : (5401/10761 : ℚ) ≤ ((c : ℚ) / 255 + 0.055) / 1.055 := by
    rw [div_le_div_iff (by norm_num) (by norm_num)]
    nlinarith
  have hbR : ((5401/10761 : ℚ) : ℝ) ≤ ((((c : ℚ) / 255 + 0.055) / 1.055 : ℚ) : ℝ) := by
    exact_mod_cast hb
  have h1 : ((5401/10761 : ℚ) : ℝ) ^ (2.4 : ℝ)
      ≤ ((((c : ℚ) / 255 + 0.055) / 1.055 : ℚ) : ℝ) ^ (2.4 : ℝ) :=
    Real.rpow_le_rpow (by positivity) hbR (by norm_num)
  have h2 : (0.18 : ℝ) ≤ ((5401/10761 : ℚ) : ℝ) ^ (2.4 : ℝ) := by
    have hB : (0 : ℝ) < ((5401/10761 : ℚ) : ℝ) := by
      push_cast
      norm_num
    have hy : (0 : ℝ) < ((5401/10761 : ℚ) : ℝ) ^ (2.4 : ℝ) := Real.rpow_pos_of_pos hB _
    have h5 : (((5401/10761 : ℚ) : ℝ) ^ (2.4 : ℝ)) ^ (5 : ℕ) = ((5401/10761 : ℚ) : ℝ) ^ (12 : ℕ) := by
      rw [← Real.rpow_natCast (((5401/10761 : ℚ) : ℝ) ^ (2.4 : ℝ)) 5, ← Real.rpow_mul (le_of_lt hB)]
      rw [show ((2.4 : ℝ) * ((5 : ℕ) : ℝ)) = ((12 : ℕ) : ℝ) by norm_num]
      exact Real.rpow_natCast _ 12
    have h18 : (0.18 : ℝ) ^ (5 : ℕ) ≤ ((5401/10761 : ℚ) : ℝ) ^ (12 : ℕ) := by
      push_cast
      norm_num
    by_contra hcon
    push_neg at hcon
    have hlt : (((5401/10761 : ℚ) : ℝ) ^ (2.4 : ℝ)) ^ (5 : ℕ) < (0.18 : ℝ) ^ (5 : ℕ) :=
      pow_lt_pow_left hcon (le_of_lt hy) (by norm_num)
    rw [h5] at hlt
    linarith
  linarith

/-- White has luminance exactly one. -/
theorem calculateLuminance_white : calculateLuminance 255 255 255 = 1 := by
  unfold calculateLuminance srgbChannel
  rw [if_neg (by norm_num)]
  rw [show (((255 : ℕ) : ℚ) / 255 + 0.055) / 1.055 = 1 by norm_num]
  rw [show ((1 : ℚ) : ℝ) = (1 : ℝ) by norm_num]
  rw [Real.one_rpow]
  norm_num

/-- Luminance of a triple of channels at least 121 is at least
0.18. -/
theorem calculateLuminance_ge (r g b : ℕ) (hr : 121 ≤ r) (hg : 121 ≤ g) (hb : 121 ≤ b) :
    (0.18 : ℝ) ≤ calculateLuminance r g b := by
  unfold calculateLuminance
  have h1 := srgbChannel_ge r hr
  have h2 := srgbChannel_ge g hg
  have h3 := srgbChannel_ge b hb
  linarith

/-- Every RGB channel of a generated pastel hsl color is at least
121. -/
theorem mkHsl_channels_ge (h s l : ℕ) (hh : h ≤ 360) (hs1 : 25 ≤ s) (hs2 : s ≤ 50)
    (hl1 : 65 ≤ l) (hl2 : l ≤ 85) :
    121 ≤ (hslToRgb (mkHslString h s l)).r ∧
    121 ≤ (hslToRgb (mkHslString h s l)).g ∧
    121 ≤ (hslToRgb (mkHslString h s l)).b := by
  have hsq1 : (25 : ℚ) ≤ (s : ℚ) := by exact_mod_cast hs1
  have hsq2 : (s : ℚ) ≤ 50 := by exact_mod_cast hs2
  have hlq1 : (65 : ℚ) ≤ (l : ℚ) := by exact_mod_cast hl1
  have hlq2 : (l : ℚ) ≤ 85 := by exact_mod_cast hl2
  have hhq : (h : ℚ) ≤ 360 := by exact_mod_cast hh
  have hh0 : (0 : ℚ) ≤ (h : ℚ) := by positivity
  unfold hslToRgb
  simp only [hslMatch_mk]
  rw [if_neg (by positivity)]
  rw [if_neg (by rw [not_lt]; linarith)]
  have hpq : 2 * ((l : ℚ) / 100) - ((l : ℚ) / 100 + (s : ℚ) / 100 - (l : ℚ) / 100 * ((s : ℚ) / 100))
      ≤ (l : ℚ) / 100 + (s : ℚ) / 100 - (l : ℚ) / 100 * ((s : ℚ) / 100) := by
    nlinarith
  have hp : (19/40 : ℚ) ≤ 2 * ((l : ℚ) / 100)
      - ((l : ℚ) / 100 + (s : ℚ) / 100 - (l : ℚ) / 100 * ((s : ℚ) / 100)) := by
    nlinarith
  refine ⟨?_, ?_, ?_⟩
  · apply jsRoundNat_ge_of_le
    have hge := hue2rgb_ge _ _ ((h : ℚ) / 360 + 1 / 3) hpq (by linarith [div_nonneg hh0 (by norm_num : (0:ℚ) ≤ 360)])
    push_cast
    nlinarith
  · apply jsRoundNat_ge_of_le
    have hge := hue2rgb_ge _ _ ((h : ℚ) / 360) hpq (by linarith [div_nonneg hh0 (by norm_num : (0:ℚ) ≤ 360)])
    push_cast
    nlinarith
  · apply jsRoundNat_ge_of_le
    have hge := hue2rgb_ge _ _ ((h : ℚ) / 360 - 1 / 3) hpq (by
      have : (0 : ℚ) ≤ (h : ℚ) / 360 := div_nonneg hh0 (by norm_num)
      linarith)
    push_cast
    nlinarith

/-- Every generated palette color has luminance at least 0.18. -/
theorem paletteColor_lum_ge (seed : ℤ) (c : String) (hc : c ∈ generateColorPalette seed) :
    (0.18 : ℝ) ≤ calculateLuminance (hslToRgb c).r (hslToRgb c).g (hslToRgb c).b := by
  rw [generateColorPalette_eq] at hc
  obtain ⟨h, s, l, hceq, hh, hs1, hs2, hl1, hl2⟩ := paletteColors_mem _ _ _ _ c hc
  subst hceq
  obtain ⟨h1, h2, h3⟩ := mkHsl_channels_ge h s l hh hs1 hs2 hl1 hl2
  exact calculateLuminance_ge _ _ _ h1 h2 h3

/-- The generated palette always selects dark text. -/
theorem palette_black (seed : ℤ) :
    getAdaptiveTextColor (generateColorPalette seed) = "#000000" := by
  apply getAdaptiveTextColor_black_of_lum
  · intro hnil
    rcases generateColorPalette_length seed with h | h <;> rw [hnil] at h <;> simp at h
  · exact fun c hc => paletteColor_lum_ge seed c hc

/-- C9: for every seed, the adaptive text color of the generated
palette is dark text: every generated entry has lightness at least
65 percent and saturation at most 50 percent, so each color has WCAG
luminance at least 0.18, above the crossover under which white text
would win; the white branch is unreachable for generated palettes. -/
theorem getAdaptiveTextColor_generated_black (seed : ℤ) :
    getAdaptiveTextColor (generateColorPalette seed) = "#000000" :=
  palette_black seed

/-- Text color field of generateLabelGradient. -/
theorem generateLabelGradient_textColor (text : String) (ty : GradientType)
    (sd : Option ℤ) (co : Option (List String)) (ang : Option ℕ) :
    (generateLabelGradient text ty ⟨sd, co, ang⟩).textColor
      = getAdaptiveTextColor (resolveColors (resolveSeed text sd) co) := rfl

/-- C8: getAdaptiveTextColor returns exactly white or black; it is
white precisely when the WCAG contrast of the mean palette luminance
against white strictly exceeds the contrast against black, and an
exact tie yields dark text. -/
theorem getAdaptiveTextColor_contrast (colors : List String) (hne : colors ≠ []) :
    (getAdaptiveTextColor colors = "#ffffff" ∨ getAdaptiveTextColor colors = "#000000") ∧
    (getAdaptiveTextColor colors = "#ffffff" ↔
      calculateContrastRatio (calculateGradientLuminance colors) 1
        > calculateContrastRatio (calculateGradientLuminance colors) 0) ∧
    (calculateContrastRatio (calculateGradientLuminance colors) 1
        = calculateContrastRatio (calculateGradientLuminance colors) 0 →
      getAdaptiveTextColor colors = "#000000") := by
  unfold getAdaptiveTextColor
  by_cases hgt : calculateContrastRatio (calculateGradientLuminance colors) 1
      > calculateContrastRatio (calculateGradientLuminance colors) 0
  · rw [if_pos hgt]
    exact ⟨Or.inl rfl, ⟨fun _ => hgt, fun _ => rfl⟩,
      fun heq => absurd (heq ▸ hgt) (lt_irrefl _)⟩
  · rw [if_neg hgt]
    exact ⟨Or.inr rfl, ⟨fun hw => absurd hw (by decide), fun hc => absurd hc hgt⟩,
      fun _ => rfl⟩

/-- Witness for the contrast rule at a dark single-color palette. -/
theorem getAdaptiveTextColor_contrast_witness :
    (getAdaptiveTextColor ["hsl(0, 50%, 20%)"] = "#ffffff" ∨
      getAdaptiveTextColor ["hsl(0, 50%, 20%)"] = "#000000") ∧
    (getAdaptiveTextColor ["hsl(0, 50%, 20%)"] = "#ffffff" ↔
      calculateContrastRatio (calculateGradientLuminance ["hsl(0, 50%, 20%)"]) 1
        > calculateContrastRatio (calculateGradientLuminance ["hsl(0, 50%, 20%)"]) 0) ∧
    (calculateContrastRatio (calculateGradientLuminance ["hsl(0, 50%, 20%)"]) 1
        = calculateContrastRatio (calculateGradientLuminance ["hsl(0, 50%, 20%)"]) 0 →
      getAdaptiveTextColor ["hsl(0, 50%, 20%)"] = "#000000") :=
  getAdaptiveTextColor_contrast ["hsl(0, 50%, 20%)"] (by decide)

/-- C10: a color string the hsl regex does not match anywhere is
converted to white (255, 255, 255), white contributes luminance
exactly one, and a supplied palette consisting entirely of such
unparseable strings (or empty, falling back to the generated palette)
always yields dark text. -/
theorem generateLabelGradient_unparseable_black :
    (∀ c, hslMatch c = none → hslToRgb c = ⟨255, 255, 255⟩) ∧
    calculateLuminance 255 255 255 = 1 ∧
    ∀ (text : String) (ty : GradientType) (sd : Option ℤ) (cs : List String) (ang : Option ℕ),
      (∀ c ∈ cs, hslMatch c = none) →
      (generateLabelGradient text ty ⟨sd, some cs, ang⟩).textColor = "#000000" := by
  refine ⟨?_, calculateLuminance_white, ?_⟩
  · intro c hc
    unfold hslToRgb
    rw [hc]
  · intro text ty sd cs ang hcs
    rw [generateLabelGradient_textColor]
    rcases cs with _ | ⟨c0, cs'⟩
    · show getAdaptiveTextColor (resolveColors (resolveSeed text sd) (some [])) = "#000000"
      rw [resolveColors_empty]
      exact palette_black _
    · rw [show resolveColors (resolveSeed text sd) (some (c0 :: cs')) = c0 :: cs' from by
        simp [resolveColors]]
      apply getAdaptiveTextColor_black_of_lum _ (by simp)
      intro c hc
      have hwhite : hslToRgb c = ⟨255, 255, 255⟩ := by
        unfold hslToRgb
        rw [hcs c hc]
      rw [hwhite]
      show (0.18 : ℝ) ≤ calculateLuminance 255 255 255
      rw [calculateLuminance_white]
      norm_num

/-- Witness for the unparseable-color claim on a hex color and a
decimal hsl string. -/
theorem generateLabelGradient_unparseable_black_witness :
    hslToRgb "#667eea" = ⟨255, 255, 255⟩ ∧
    (generateLabelGradient "Test" GradientType.linear
        ⟨none, some ["#667eea", "hsl(200.5, 50%, 70%)"], none⟩).textColor = "#000000" :=
  ⟨generateLabelGradient_unparseable_black.1 "#667eea" (by decide),
   generateLabelGradient_unparseable_black.2.2 "Test" GradientType.linear none
     ["#667eea", "hsl(200.5, 50%, 70%)"] none (by decide)⟩

/-! Batteries marks the rational arithmetic operations irreducible,
which blocks evaluation of the embedded definitions inside decide;
restore the ordinary reducibility status for them. -/

set_option allowUnsafeReducibility true in
attribute [semireducible] Rat.mul Rat.inv Rat.add Rat.sub Rat.ofScientific

/-- C1 (corrected): the scale computation has no zero guard. A zero
natural width with positive container width produces +Infinity, which
the clamp turns into 1.5, not 1.0; a zero container width with
positive natural width produces 0, clamped to 0.4, not 1.0; both
widths zero produce NaN. For every positive natural width the result
is finite. -/
theorem computeScale_zero_behavior :
    computeScale 0 500 = JSNum.fin 1.5 ∧
    computeScale 500 0 = JSNum.fin 0.4 ∧
    computeScale 0 0 = JSNum.nan ∧
    ∀ tw cw : ℚ, 0 < tw → ∃ q : ℚ, computeScale tw cw = JSNum.fin q := by
  refine ⟨by decide, by decide, by decide, ?_⟩
  intro tw cw htw
  exact ⟨_, computeScale_eq_clamp tw cw htw⟩

/-- Witness for the conditional part of the amended C1 statement. -/
theorem computeScale_zero_behavior_witness :
    ∃ q : ℚ, computeScale 3 7 = JSNum.fin q :=
  computeScale_zero_behavior.2.2.2 3 7 (by norm_num)

/-- C1 counterexample: the claim that computeScale(0, 500) equals 1.0
is false; the code yields 1.5 there. -/
theorem computeScale_zero_natural_ne_one :
    computeScale 0 500 ≠ JSNum.fin 1 := by decide

/-- C2 counterexample: with an empty options.colors list the gradient
field is not the fixed default gradient string (the generated palette
is used instead). -/
theorem generateLabelGradient_empty_colors_not_default :
    (generateLabelGradient "" GradientType.linear ⟨none, some [], none⟩).gradient
      ≠ defaultGradient := by decide

/-- C6 counterexample: a single supplied color is returned as the
gradient unchanged and matches none of the three shape patterns, so
the claim as stated (for every options value) is false for the linear
request already. -/
theorem generateLabelGradient_single_color_no_pattern :
    (generateLabelGradient "x" GradientType.linear ⟨none, some ["red"], none⟩).gradient = "red" ∧
    matchLinearPat (generateLabelGradient "x" GradientType.linear ⟨none, some ["red"], none⟩).gradient = false := by
  constructor <;> decide

/-- Witness for the amended palette shape claim: the first color of
the palette for seed 43. -/
theorem generateColorPalette_shape_witness :
    ∃ h s l : ℕ, "hsl(360, 26%, 66%)" = mkHslString h s l ∧ h ≤ 360 ∧ 25 ≤ s ∧ s ≤ 50 ∧ 65 ≤ l ∧ l ≤ 85 :=
  (generateColorPalette_shape 43).2 "hsl(360, 26%, 66%)" (by decide)

/-- C7 counterexample: for seed 43 the palette contains a color with
hue exactly 360, so the half-open range [0, 360) of the claim fails. -/
theorem generateColorPalette_hue_reaches_360 :
    ∃ c ∈ generateColorPalette 43, ∀ h s l : ℕ, h < 360 → c ≠ mkHslString h s l := by
  refine ⟨"hsl(360, 26%, 66%)", by decide, ?_⟩
  intro h s l hh heq
  have h2 := hslMatch_mk h s l
  rw [← heq] at h2
  have h1 : hslMatch "hsl(360, 26%, 66%)" = some (360, 26, 66) := by decide
  rw [h1] at h2
  simp at h2
  omega
